import Mathlib

/-!
Shallow embedding of the torch_musa reduction / cumulative operators
(`src/torch_musa/csrc/aten/ops/Reduce.cpp`) and of the MUSA stream wrapper
(`src/torch_musa/csrc/core/MUSAStream.h`).

Tensors are modelled by their caller-visible metadata (definedness, scalar
type, sizes, device) plus an abstract integer payload.  The external
collaborators (the muDNN primitive library, the host framework's type
promotion table and data conversion, the CPU fallback kernels) are black
boxes, passed in as an explicit `Ext` record of oracle functions; the code
of the repository is embedded as functions parameterised by that record.
Calls into the runtime / library are additionally recorded as an event
trace so that ordering properties (device guard before library calls) can
be stated.
-/

namespace TorchMusa

/-- Scalar types of the host framework that this code manipulates. -/
inductive ScalarType where
  | Byte
  | Char
  | Short
  | Int
  | Long
  | Half
  | Float
  | Double
  | Bool
  | BFloat16
  deriving DecidableEq, Repr

/-- `at::isIntegralType(t, includeBool)`. -/
def isIntegralType (t : ScalarType) (includeBool : Bool) : Bool :=
  (t = ScalarType.Byte || t = ScalarType.Char || t = ScalarType.Short ||
   t = ScalarType.Int || t = ScalarType.Long) ||
  (includeBool && t = ScalarType.Bool)

/-- `at::isFloatingType(t)`. -/
def isFloatingType (t : ScalarType) : Bool :=
  t = ScalarType.Half || t = ScalarType.Float || t = ScalarType.Double ||
  t = ScalarType.BFloat16

/-- Device types relevant to the code: the MUSA device plus others. -/
inductive DeviceType where
  | cpu
  | cuda
  | musa
  deriving DecidableEq, Repr

/-- A `c10::Device`: type and index. -/
structure Device where
  dtype : DeviceType
  index : Int
  deriving DecidableEq, Repr

/-- Caller-visible tensor model: metadata plus an abstract payload. -/
structure Tensor where
  defined : Bool
  scalar_type : ScalarType
  sizes : List Nat
  device : Device
  data : List Int
  deriving DecidableEq, Repr

def Tensor.numel (t : Tensor) : Nat :=
  t.sizes.foldr (fun a b => a * b) 1

def Tensor.dim (t : Tensor) : Nat :=
  t.sizes.length

/-- The default-constructed `at::Tensor()`: undefined. -/
def undefinedTensor : Tensor :=
  { defined := false
    scalar_type := ScalarType.Float
    sizes := []
    device := { dtype := DeviceType.cpu, index := -1 }
    data := [] }

/-- `at::empty(shape, options)`: fresh tensor of the given metadata. -/
def emptyTensor (shape : List Nat) (st : ScalarType) (dev : Device) : Tensor :=
  { defined := true
    scalar_type := st
    sizes := shape
    device := dev
    data := List.replicate (shape.foldr (fun a b => a * b) 1) 0 }

/-- `musa_get_dtype_from_self` (Reduce.cpp, copied from ReduceOps.cpp). -/
def musa_get_dtype_from_self
    (self : Tensor) (dtype : Option ScalarType) (promote_integers : Bool) :
    ScalarType :=
  match dtype with
  | some d => d
  | none =>
    let src_type := self.scalar_type
    if promote_integers && isIntegralType src_type true then ScalarType.Long
    else src_type

/-- `musa_infer_dtype_from_optional` (Reduce.cpp, copied from ReduceOps.cpp). -/
def musa_infer_dtype_from_optional
    (self : Tensor) (opt_dtype : Option ScalarType) (result : Tensor) :
    ScalarType :=
  if result.defined then opt_dtype.getD result.scalar_type
  else musa_get_dtype_from_self self opt_dtype true

/-- The reduction type-promotion rule as the specification states it:
`opt_dtype` wins when present; otherwise a defined result tensor's scalar
type; otherwise self's scalar type, with integral (including Bool) self
promoted to Long. -/
def inferDtypeSpec
    (self : Tensor) (opt_dtype : Option ScalarType) (result : Tensor) :
    ScalarType :=
  match opt_dtype with
  | some d => d
  | none =>
    if result.defined then result.scalar_type
    else if isIntegralType self.scalar_type true then ScalarType.Long
    else self.scalar_type

/-- C1: `musa_infer_dtype_from_optional` returns `opt_dtype` when it has a
value; otherwise the result tensor's scalar type when `result` is defined;
otherwise self's scalar type, except that an integral self type (Bool
included) yields Long — the host framework's reduction promotion rule. -/
theorem c1_infer_dtype_from_optional
    (self : Tensor) (opt_dtype : Option ScalarType) (result : Tensor) :
    musa_infer_dtype_from_optional self opt_dtype result =
      inferDtypeSpec self opt_dtype result := by
  cases opt_dtype <;>
    simp [musa_infer_dtype_from_optional, inferDtypeSpec,
      musa_get_dtype_from_self]

/-! ## Events and external black boxes -/

/-- One observable interaction of the wrapper with the runtime / library. -/
inductive Event where
  | guard (d : Device)
  | createMUTensor
  | setMode
  | setDim (ds : List Int)
  | setNormOrd
  | run
  | runWithIndices
  | runIndices
  | fill
  | copy
  | zero
  deriving DecidableEq, Repr

/-- Events that create library tensor handles or invoke the library's run
entry points. -/
def libEvent : Event → Bool
  | Event.createMUTensor => true
  | Event.run => true
  | Event.runWithIndices => true
  | Event.runIndices => true
  | _ => false

/-- `::musa::dnn::Reduce::Mode`. -/
inductive ReduceMode where
  | MEAN
  | ADD
  | PROD
  | OR
  | AND
  | MAX
  | MIN
  | NORM
  deriving DecidableEq, Repr

/-- `::musa::dnn::Cum::Mode`. -/
inductive CumMode where
  | ADD
  | MUL
  deriving DecidableEq, Repr

/-- An `at::Scalar` as used here: integral, floating or boolean payload. -/
inductive Scalar where
  | i (v : Int)
  | f (v : Rat)
  | b (v : Bool)
  deriving DecidableEq, Repr

/-- The external black boxes: the muDNN primitive library's run entry
points, the host framework's dtype conversion of payloads, its type
promotion table, and the CPU fallback reduction (`at::max` / `at::min`).
The wrapper code is embedded as functions parameterised over this record. -/
structure Ext where
  reduceRun : ReduceMode → List Int → Option Rat → List Int → List Int
  reduceRunIndices : ReduceMode → Int → List Int → List Int × List Int
  reduceRunIndicesOnly : ReduceMode → Int → List Int → List Int
  cumRun : CumMode → Int → List Int → List Int
  convert : ScalarType → List Int → List Int
  convertVal : ScalarType → Int → Int
  promoteTypes : ScalarType → ScalarType → ScalarType
  cpuMaxAll : List Int → List Int
  cpuMinAll : List Int → List Int

/-- A trivial instance of the black boxes, used to evaluate the embedding
at concrete inputs. -/
def extTrivial : Ext :=
  { reduceRun := fun _ _ _ _ => []
    reduceRunIndices := fun _ _ _ => ([], [])
    reduceRunIndicesOnly := fun _ _ _ => []
    cumRun := fun _ _ _ => []
    convert := fun _ d => d
    convertVal := fun _ v => v
    promoteTypes := fun a _ => a
    cpuMaxAll := fun _ => []
    cpuMinAll := fun _ => [] }

/-- `Tensor.to(dtype)`: metadata change plus payload conversion. -/
def tensorTo (E : Ext) (t : Tensor) (d : ScalarType) : Tensor :=
  { t with scalar_type := d, data := E.convert d t.data }

/-- `out.fill_(in)` with a 0-dim `in`: every element becomes in's value,
cast to out's dtype. -/
def tensorFill (E : Ext) (t src : Tensor) : Tensor :=
  { t with
    data := List.replicate t.numel (E.convertVal t.scalar_type (src.data.headD 0)) }

/-- `at::native::resize_output(out, shape)`: reallocates when the sizes
differ (contents then unspecified; modelled as zeros). -/
def resize_output (t : Tensor) (s : List Nat) : Tensor :=
  if t.sizes = s then t
  else { t with sizes := s, data := List.replicate (s.foldr (fun a b => a * b) 1) 0 }

/-! ## Dim wrapping and reduction output shape (host framework helpers) -/

/-- `at::maybe_wrap_dim(dim, ndim)` with scalar wrapping: a 0-dim tensor is
treated as 1-dim; negative dims get `ndim` added; out-of-range raises. -/
def maybe_wrap_dim (d : Int) (ndim : Nat) : Except String Nat :=
  let m : Int := if ndim = 0 then 1 else (ndim : Int)
  if -m ≤ d ∧ d < m then
    Except.ok (if d < 0 then (d + m).toNat else d.toNat)
  else Except.error "Dimension out of range"

/-- `at::maybe_wrap_dims(dims, ndim)`. -/
def maybe_wrap_dims (ds : List Int) (ndim : Nat) : Except String (List Nat) :=
  ds.mapM (fun d => maybe_wrap_dim d ndim)

/-- `at::native::make_dim_mask(dims, ndim)`: mark reduced positions; an
empty dim list reduces every dimension. -/
def make_dim_mask (dims : List Nat) (i : Nat) : Bool :=
  if dims = [] then true else dims.contains i

/-- `at::native::shape_from_dim_mask`: drop the masked dimensions, or keep
them with size 1 under `keepdim`. -/
def shape_from_dim_mask (sizes : List Nat) (mask : Nat → Bool) (keepdim : Bool) :
    List Nat :=
  sizes.enum.filterMap
    (fun p => if mask p.1 then (if keepdim then some 1 else none) else some p.2)

/-- `at::meta::get_reduction_shape(self, dims, keepdim)` on already wrapped
dims. -/
def get_reduction_shape (sizes : List Nat) (dims : List Nat) (keepdim : Bool) :
    List Nat :=
  shape_from_dim_mask sizes (make_dim_mask dims) keepdim

/-- The host framework's reduction shape as the specification phrases it:
each reduced dimension (an empty dim list reduces all of them) is removed,
or kept with size 1 when `keepdim` is true; the rest keep their extent. -/
def reductionShapeSpec (sizes : List Nat) (wrapped : List Nat) (keepdim : Bool) :
    List Nat :=
  sizes.enum.filterMap
    (fun p =>
      if wrapped.contains p.1 ∨ wrapped = [] then
        (if keepdim then some 1 else none)
      else some p.2)

/-! ## Reduce wrappers -/

/-- The norm-order marshalling of `ReduceCall`: outside norm mode no order
is set; in norm mode the order defaults to 2 and an explicit `p` must be
integral or floating (cast to float), otherwise `TORCH_CHECK` raises. -/
def normOrdOf (p : Option Scalar) (is_norm : Bool) : Except String (Option Rat) :=
  if is_norm then
    match p with
    | none => Except.ok (some 2)
    | some (Scalar.i v) => Except.ok (some (v : Rat))
    | some (Scalar.f v) => Except.ok (some v)
    | some (Scalar.b _) =>
      Except.error "norm_kernel_musa_impl expects norm to be integer or float"
  else Except.ok none

/-- The dims actually handed to `Reduce::SetDim`: a 0-dim one-element
input gets an empty dim list, everything else passes `dim` through. -/
def marshalDims (self : Tensor) (dim : List Int) : List Int :=
  if self.dim = 0 ∧ self.numel = 1 then [] else dim

/-- `ReduceCall` (Reduce.cpp): guard on self's device, early-return on an
empty input, otherwise create library tensor handles, set mode / dims /
norm order, and let the library's `Run` produce the output payload. -/
def ReduceCall (E : Ext) (output self : Tensor) (dim : List Int)
    (m : ReduceMode) (p : Option Scalar) (is_norm : Bool) :
    Except String (Tensor × List Event) :=
  if self.numel = 0 then Except.ok (output, [Event.guard self.device])
  else
    match normOrdOf p is_norm with
    | Except.error e => Except.error e
    | Except.ok pv =>
      let dims := marshalDims self dim
      Except.ok
        ({ output with data := E.reduceRun m dims pv self.data },
         [Event.guard self.device, Event.createMUTensor, Event.createMUTensor,
          Event.setMode, Event.setDim dims] ++
           (if is_norm then [Event.setNormOrd] else []) ++ [Event.run])

/-- `Reduction` (Reduce.cpp): infer the output dtype, wrap the dims,
compute the host framework's reduction shape, allocate the output, then
zero-fill an empty reduction or call `ReduceCall`. -/
def Reduction (E : Ext) (self : Tensor) (dim : List Int) (keepdim : Bool)
    (out_dtype : Option ScalarType) (m : ReduceMode) (p : Option Scalar)
    (is_norm : Bool) : Except String (Tensor × List Event) :=
  let od := musa_infer_dtype_from_optional self out_dtype undefinedTensor
  match maybe_wrap_dims dim self.dim with
  | Except.error e => Except.error e
  | Except.ok dims_vec =>
    let shape := get_reduction_shape self.sizes dims_vec keepdim
    let output := emptyTensor shape od self.device
    if self.numel = 0 then
      Except.ok
        ({ output with data := List.replicate output.numel 0 },
         [Event.guard self.device, Event.zero])
    else
      match ReduceCall E output self (dims_vec.map Int.ofNat) m p is_norm with
      | Except.error e => Except.error e
      | Except.ok (t, tr) => Except.ok (t, Event.guard self.device :: tr)

/-- `ReduceIndicesCall` (Reduce.cpp): check the in/out scalar types match,
guard on self's device, create the three library handles, set mode and the
single dim, and let `RunWithIndices` fill both payloads. -/
def ReduceIndicesCall (E : Ext) (output indices self : Tensor) (dim : Int)
    (m : ReduceMode) : Except String (Tensor × Tensor × List Event) :=
  if self.scalar_type ≠ output.scalar_type then
    Except.error "scalar_type of in&out must be the same"
  else
    let r := E.reduceRunIndices m dim self.data
    Except.ok
      ({ output with data := r.1 }, { indices with data := r.2 },
       [Event.guard self.device, Event.createMUTensor, Event.createMUTensor,
        Event.createMUTensor, Event.setMode, Event.setDim [dim],
        Event.runWithIndices])

/-- `ReduceIndicesOnlyCall` (Reduce.cpp): guard, two handles, mode, dim,
`RunIndices`. -/
def ReduceIndicesOnlyCall (E : Ext) (output self : Tensor) (dim : Int)
    (m : ReduceMode) : Tensor × List Event :=
  ({ output with data := E.reduceRunIndicesOnly m dim self.data },
   [Event.guard self.device, Event.createMUTensor, Event.createMUTensor,
    Event.setMode, Event.setDim [dim], Event.runIndices])

/-- `ReductionIndices` (Reduce.cpp): wrap the dim, compute the reduction
shape, allocate value and index outputs of that shape (indices as Long),
and run the indexed reduction. -/
def ReductionIndices (E : Ext) (self : Tensor) (dim : Int) (keepdim : Bool)
    (m : ReduceMode) : Except String (Tensor × Tensor × List Event) :=
  match maybe_wrap_dim dim self.dim with
  | Except.error e => Except.error e
  | Except.ok d =>
    match maybe_wrap_dims [Int.ofNat d] self.dim with
    | Except.error e => Except.error e
    | Except.ok dims_vec =>
      let shape := get_reduction_shape self.sizes dims_vec keepdim
      let output := emptyTensor shape self.scalar_type self.device
      let indices := emptyTensor shape ScalarType.Long self.device
      ReduceIndicesCall E output indices self (Int.ofNat d) m

/-- `MaxAllCall` / `MinAllCall` (Reduce.cpp): allocate a 0-dim output of
self's dtype; zero it for an empty input, otherwise reduce over an empty
dim list. -/
def MaxAllCall (E : Ext) (self : Tensor) (m : ReduceMode) :
    Except String (Tensor × List Event) :=
  let output := emptyTensor [] self.scalar_type self.device
  if self.numel = 0 then
    Except.ok ({ output with data := List.replicate output.numel 0 }, [Event.zero])
  else ReduceCall E output self [] m none false

/-- `MaxAll` (Reduce.cpp): Double inputs fall back to the host framework's
CPU `at::max` and are moved back to the device; otherwise `MaxAllCall`
with mode MAX. -/
def MaxAll (E : Ext) (self : Tensor) : Except String (Tensor × List Event) :=
  if self.scalar_type = ScalarType.Double then
    Except.ok
      ({ defined := true
         scalar_type := ScalarType.Double
         sizes := []
         device := self.device
         data := E.cpuMaxAll self.data },
       [Event.guard self.device])
  else
    match MaxAllCall E self ReduceMode.MAX with
    | Except.error e => Except.error e
    | Except.ok (t, tr) => Except.ok (t, Event.guard self.device :: tr)

/-- `MinAll` (Reduce.cpp): the `MinAllCall` twin of `MaxAll`. -/
def MinAll (E : Ext) (self : Tensor) : Except String (Tensor × List Event) :=
  if self.scalar_type = ScalarType.Double then
    Except.ok
      ({ defined := true
         scalar_type := ScalarType.Double
         sizes := []
         device := self.device
         data := E.cpuMinAll self.data },
       [Event.guard self.device])
  else
    match MaxAllCall E self ReduceMode.MIN with
    | Except.error e => Except.error e
    | Except.ok (t, tr) => Except.ok (t, Event.guard self.device :: tr)

/-- `Any` (Reduce.cpp): full OR-reduction at self's dtype, converted to
Bool afterwards when self is not already Bool. -/
def Any (E : Ext) (self : Tensor) : Except String (Tensor × List Event) :=
  match Reduction E self [] false (some self.scalar_type) ReduceMode.OR
      none false with
  | Except.error e => Except.error e
  | Except.ok (out, tr) =>
    if self.scalar_type ≠ ScalarType.Bool then
      Except.ok (tensorTo E out ScalarType.Bool, tr)
    else Except.ok (out, tr)

/-- `All` (Reduce.cpp): full AND-reduction at self's dtype, converted to
Bool afterwards when self is not already Bool. -/
def All (E : Ext) (self : Tensor) : Except String (Tensor × List Event) :=
  match Reduction E self [] false (some self.scalar_type) ReduceMode.AND
      none false with
  | Except.error e => Except.error e
  | Except.ok (out, tr) =>
    if self.scalar_type ≠ ScalarType.Bool then
      Except.ok (tensorTo E out ScalarType.Bool, tr)
    else Except.ok (out, tr)

/-! ## Cumulative wrappers -/

/-- The compute-dtype adjustment of `CumulativeImpl` (the muDNN
workarounds), returning the pair (in_ctype, out_ctype). -/
def cumCtypes (E : Ext) (ic oc : ScalarType) : ScalarType × ScalarType :=
  if isFloatingType ic || isFloatingType oc then
    let p := E.promoteTypes ic oc
    (p, p)
  else if oc = ScalarType.Int ∨ oc = ScalarType.Long then
    if ic = ScalarType.Byte ∨ ic = ScalarType.Short then (ScalarType.Int, oc)
    else if ic = ScalarType.Long then (ic, ic)
    else (ic, oc)
  else
    if ic = ScalarType.Long then (ic, ic)
    else if ic = ScalarType.Byte ∨ ic = ScalarType.Short then
      (ScalarType.Int, ScalarType.Int)
    else (ic, ScalarType.Int)

/-- `CumulativeImpl` (Reduce.cpp): early-return on an empty input; fill a
0-dim out with in's value; guard on in's device; convert both tensors to
the workaround compute dtypes; run the library's cumulative primitive; and
copy the result back into out (in out's own dtype) when the compute dtype
differs from out's. -/
def CumulativeImpl (E : Ext) (out in_ : Tensor) (dim : Int) (mode : CumMode) :
    Tensor × List Event :=
  if in_.numel = 0 then (out, [])
  else
    let out1 := if in_.dim = 0 then tensorFill E out in_ else out
    let ev0 := (if in_.dim = 0 then [Event.fill] else []) ++ [Event.guard in_.device]
    let tc := cumCtypes E in_.scalar_type out.scalar_type
    let c_in := if tc.1 ≠ in_.scalar_type then tensorTo E in_ tc.1 else in_
    let c_out := if tc.2 ≠ out1.scalar_type then tensorTo E out1 tc.2 else out1
    let res := E.cumRun mode dim c_in.data
    let ev := ev0 ++
      [Event.createMUTensor, Event.createMUTensor, Event.setDim [dim],
       Event.setMode, Event.run]
    if tc.2 ≠ out.scalar_type then
      ({ out1 with data := E.convert out1.scalar_type res }, ev ++ [Event.copy])
    else ({ c_out with data := res }, ev)

/-- `CumulativeOut` (Reduce.cpp): an explicit dtype must equal out's
scalar type (else `TORCH_CHECK` raises before anything is touched); then
out is resized to self's sizes and `CumulativeImpl` fills it. -/
def CumulativeOut (E : Ext) (self : Tensor) (dim : Int)
    (dtype : Option ScalarType) (out : Tensor) (mode : CumMode) :
    Except String (Tensor × List Event) :=
  match dtype with
  | some d =>
    if d = out.scalar_type then
      Except.ok (CumulativeImpl E (resize_output out self.sizes) self dim mode)
    else Except.error "Expected out tensor to have dtype"
  | none =>
    Except.ok (CumulativeImpl E (resize_output out self.sizes) self dim mode)

/-- `Cumulative_` (Reduce.cpp): in-place variant; the dtype argument is
deliberately ignored. -/
def Cumulative_ (E : Ext) (self : Tensor) (dim : Int)
    (_dtype : Option ScalarType) (mode : CumMode) : Tensor × List Event :=
  CumulativeImpl E self self dim mode

/-- `Cumulative` (Reduce.cpp): allocate the output at the requested dtype
(integral self defaults to Long) and fill it. -/
def Cumulative (E : Ext) (self : Tensor) (dim : Int)
    (dtype : Option ScalarType) (mode : CumMode) : Tensor × List Event :=
  let in_dtype := self.scalar_type
  let out_dtype := dtype.getD
    (if isIntegralType in_dtype true then ScalarType.Long else in_dtype)
  let out := emptyTensor self.sizes out_dtype self.device
  CumulativeImpl E out self dim mode

/-- `CumSum` (GEN_CUMULATIVE_FUNCTION with mode ADD). -/
def CumSum (E : Ext) (self : Tensor) (dim : Int) (dtype : Option ScalarType) :
    Tensor × List Event :=
  Cumulative E self dim dtype CumMode.ADD

/-- `CumSumOut`. -/
def CumSumOut (E : Ext) (self : Tensor) (dim : Int) (dtype : Option ScalarType)
    (out : Tensor) : Except String (Tensor × List Event) :=
  CumulativeOut E self dim dtype out CumMode.ADD

/-- `CumProd` (GEN_CUMULATIVE_FUNCTION with mode MUL). -/
def CumProd (E : Ext) (self : Tensor) (dim : Int) (dtype : Option ScalarType) :
    Tensor × List Event :=
  Cumulative E self dim dtype CumMode.MUL

/-- `CumProdOut`. -/
def CumProdOut (E : Ext) (self : Tensor) (dim : Int) (dtype : Option ScalarType)
    (out : Tensor) : Except String (Tensor × List Event) :=
  CumulativeOut E self dim dtype out CumMode.MUL

/-! ## MUSAStream (MUSAStream.h) -/

/-- A `c10::Stream`: id, device index and device type. -/
structure Stream where
  sid : Int
  device_index : Int
  device_type : DeviceType
  deriving DecidableEq, Repr

/-- `c10::StreamData3`: the three fields produced by `Stream::pack3`. -/
structure StreamData3 where
  stream_id : Int
  device_index : Int
  device_type : DeviceType
  deriving DecidableEq, Repr

def Stream.pack3 (s : Stream) : StreamData3 :=
  { stream_id := s.sid
    device_index := s.device_index
    device_type := s.device_type }

def Stream.unpack3 (stream_id : Int) (device_index : Int)
    (device_type : DeviceType) : Stream :=
  { sid := stream_id, device_index := device_index, device_type := device_type }

/-- `c10::Stream::operator==`: same device and id. -/
def Stream.beq (a b : Stream) : Bool :=
  a.device_type = b.device_type ∧ a.device_index = b.device_index ∧ a.sid = b.sid

/-- `c10::musa::MUSAStream`: a wrapper holding a `c10::Stream`. -/
structure MUSAStream where
  stream_ : Stream
  deriving DecidableEq, Repr

/-- The checked constructor `MUSAStream(Stream)`:
`TORCH_CHECK(stream_.device_type() == kMUSA)`. -/
def MUSAStream.mk_checked (s : Stream) : Except String MUSAStream :=
  if s.device_type = DeviceType.musa then Except.ok { stream_ := s }
  else Except.error "MUSAStream device type check failed"

/-- The `UNCHECKED` constructor `MUSAStream(Unchecked, Stream)`. -/
def MUSAStream.unchecked (s : Stream) : MUSAStream :=
  { stream_ := s }

def MUSAStream.unwrap (s : MUSAStream) : Stream :=
  s.stream_

/-- `MUSAStream::operator==`: compares the unwrapped streams. -/
def MUSAStream.beq (a b : MUSAStream) : Bool :=
  Stream.beq a.unwrap b.unwrap

def MUSAStream.device_index (s : MUSAStream) : Int :=
  s.stream_.device_index

def MUSAStream.pack3 (s : MUSAStream) : StreamData3 :=
  s.stream_.pack3

/-- `MUSAStream::unpack3`: rebuilds the stream and passes it through the
checked constructor. -/
def MUSAStream.unpack3 (stream_id : Int) (device_index : Int)
    (device_type : DeviceType) : Except String MUSAStream :=
  MUSAStream.mk_checked (Stream.unpack3 stream_id device_index device_type)

/-- `std::hash<c10::musa::MUSAStream>`: the host framework's stream hash
(an external black box `h`) applied to the unwrapped stream. -/
def musaStreamHash (h : Stream → Nat) (s : MUSAStream) : Nat :=
  h s.unwrap

/-- MUSA runtime error codes. -/
inductive MusaErr where
  | success
  | notReady
  | other (code : Nat)
  deriving DecidableEq, Repr

/-- The sticky last-error state of the MUSA runtime. -/
structure RTState where
  lastError : MusaErr
  deriving DecidableEq, Repr

/-- The vendor runtime as a black box: query / priority calls on a stream,
and the device's stream priority range. -/
structure MusaRT where
  streamQuery : Stream → MusaErr
  streamGetPriority : Stream → MusaErr × Int
  deviceGetStreamPriorityRange : MusaErr × Int × Int

/-- `MUSAStream::query()`: success gives true; not-ready clears the sticky
error (via `musaGetLastError`) and gives false; any other code raises via
`TORCH_MUSA_CHECK`. The runtime records a non-success result as the sticky
error when the call returns. -/
def MUSAStream.query (rt : MusaRT) (s : MUSAStream) (st : RTState) :
    Except MusaErr (Bool × RTState) :=
  let err := rt.streamQuery s.stream_
  let st1 := if err = MusaErr.success then st else { lastError := err }
  if err = MusaErr.success then Except.ok (true, st1)
  else if err ≠ MusaErr.notReady then Except.error err
  else Except.ok (false, { lastError := MusaErr.success })

/-- `MUSAStream::priority()`: the runtime's reported priority minus 1
(MUSA level range [1, 0], CUDA level range [0, -1]); a failing runtime
call raises. -/
def MUSAStream.priority (rt : MusaRT) (s : MUSAStream) : Except MusaErr Int :=
  let r := rt.streamGetPriority s.stream_
  if r.1 = MusaErr.success then Except.ok (r.2 - 1)
  else Except.error r.1

/-- `MUSAStream::priority_range()`: after a successful runtime call the
reported least priority must be >= 1 and the greatest <= 0
(`TORCH_INTERNAL_ASSERT`), and the returned pair is always (0, -1). -/
def MUSAStream.priority_range (rt : MusaRT) : Except String (Int × Int) :=
  let r := rt.deviceGetStreamPriorityRange
  if r.1 ≠ MusaErr.success then Except.error "MUSA runtime error"
  else if ¬(1 ≤ r.2.1) then Except.error "Unexpected MUSA stream priority range"
  else if ¬(r.2.2 ≤ 0) then Except.error "Unexpected MUSA stream priority range"
  else Except.ok (0, -1)

/-! ## Theorems -/

/-- C9: `CumulativeImpl` never changes the caller-visible scalar type of
the out tensor: even when the dtype-promotion workaround computes in a
different dtype, the result is copied back into out in out's original
scalar type. -/
theorem c9_cumulative_impl_preserves_out_dtype
    (E : Ext) (out in_ : Tensor) (dim : Int) (mode : CumMode) :
    (CumulativeImpl E out in_ dim mode).1.scalar_type = out.scalar_type := by
  unfold CumulativeImpl
  by_cases h0 : in_.numel = 0
  · simp [h0]
  · simp only [h0, if_false, ite_false]
    by_cases hd : in_.dim = 0 <;>
      by_cases hc :
        (cumCtypes E in_.scalar_type out.scalar_type).2 ≠ out.scalar_type <;>
      simp [hd, hc, tensorFill, tensorTo]

/-- C6: `MUSAStream::priority()` returns the vendor runtime's reported
priority minus 1 (translating MUSA's [1, 0] onto CUDA's [0, -1]), and
`MUSAStream::priority_range()` returns (0, -1) exactly when the device's
reported least priority is >= 1 and greatest priority is <= 0, raising
otherwise. -/
theorem c6_priority_and_priority_range
    (rt : MusaRT) (s : MUSAStream) (p least greatest : Int)
    (h1 : rt.streamGetPriority s.stream_ = (MusaErr.success, p))
    (h2 : rt.deviceGetStreamPriorityRange = (MusaErr.success, least, greatest)) :
    MUSAStream.priority rt s = Except.ok (p - 1) ∧
      (MUSAStream.priority_range rt = Except.ok (0, -1) ↔
        (1 ≤ least ∧ greatest ≤ 0)) := by
  constructor
  · simp [MUSAStream.priority, h1]
  · rw [MUSAStream.priority_range, h2]
    by_cases hl : 1 ≤ least <;> by_cases hg : greatest ≤ 0 <;>
      simp [hl, hg]

def rtC6 : MusaRT :=
  { streamQuery := fun _ => MusaErr.success
    streamGetPriority := fun _ => (MusaErr.success, 1)
    deviceGetStreamPriorityRange := (MusaErr.success, 1, 0) }

def strC6 : MUSAStream :=
  MUSAStream.unchecked { sid := 0, device_index := 0, device_type := DeviceType.musa }

/-- Witness for C6 at a concrete runtime reporting priority 1 and range
(1, 0). -/
theorem c6_priority_and_priority_range_witness :
    MUSAStream.priority rtC6 strC6 = Except.ok ((1 : Int) - 1) ∧
      (MUSAStream.priority_range rtC6 = Except.ok (0, -1) ↔
        (1 ≤ (1 : Int) ∧ (0 : Int) ≤ 0)) :=
  c6_priority_and_priority_range rtC6 strC6 1 1 0 rfl rfl

/-- C7: `MUSAStream::query()` returns true exactly when the runtime
reports success; on not-ready it clears the sticky runtime error and
returns false; any other error code raises instead of returning. -/
theorem c7_query
    (rt : MusaRT) (s : MUSAStream) (st : RTState) :
    (rt.streamQuery s.stream_ = MusaErr.success →
      MUSAStream.query rt s st = Except.ok (true, st)) ∧
    (rt.streamQuery s.stream_ = MusaErr.notReady →
      MUSAStream.query rt s st =
        Except.ok (false, { lastError := MusaErr.success })) ∧
    (rt.streamQuery s.stream_ ≠ MusaErr.success →
      rt.streamQuery s.stream_ ≠ MusaErr.notReady →
      MUSAStream.query rt s st = Except.error (rt.streamQuery s.stream_)) ∧
    ((∃ st1, MUSAStream.query rt s st = Except.ok (true, st1)) ↔
      rt.streamQuery s.stream_ = MusaErr.success) := by
  refine ⟨fun h => ?_, fun h => ?_, fun h1 h2 => ?_, ?_⟩
  · simp [MUSAStream.query, h]
  · simp [MUSAStream.query, h]
  · simp [MUSAStream.query, h1, h2]
  · constructor
    · rintro ⟨st1, h⟩
      by_cases hs : rt.streamQuery s.stream_ = MusaErr.success
      · exact hs
      · by_cases hn : rt.streamQuery s.stream_ = MusaErr.notReady <;>
          simp [MUSAStream.query, hs, hn] at h
    · intro h
      exact ⟨st, by simp [MUSAStream.query, h]⟩

def rtC7a : MusaRT :=
  { streamQuery := fun _ => MusaErr.success
    streamGetPriority := fun _ => (MusaErr.success, 1)
    deviceGetStreamPriorityRange := (MusaErr.success, 1, 0) }

def rtC7b : MusaRT :=
  { rtC7a with streamQuery := fun _ => MusaErr.notReady }

def rtC7c : MusaRT :=
  { rtC7a with streamQuery := fun _ => MusaErr.other 5 }

def strC7 : MUSAStream :=
  MUSAStream.unchecked { sid := 1, device_index := 0, device_type := DeviceType.musa }

/-- Witness for C7 at three concrete runtimes reporting success,
not-ready and an arbitrary other error. -/
theorem c7_query_witness :
    MUSAStream.query rtC7a strC7 { lastError := MusaErr.success } =
      Except.ok (true, { lastError := MusaErr.success }) ∧
    MUSAStream.query rtC7b strC7 { lastError := MusaErr.success } =
      Except.ok (false, { lastError := MusaErr.success }) ∧
    MUSAStream.query rtC7c strC7 { lastError := MusaErr.success } =
      Except.error (rtC7c.streamQuery strC7.stream_) :=
  ⟨(c7_query rtC7a strC7 { lastError := MusaErr.success }).1 rfl,
   (c7_query rtC7b strC7 { lastError := MusaErr.success }).2.1 rfl,
   (c7_query rtC7c strC7 { lastError := MusaErr.success }).2.2.1
     (by decide) (by decide)⟩

def strC8cpu : MUSAStream :=
  MUSAStream.unchecked { sid := 0, device_index := 0, device_type := DeviceType.cpu }

/-- C8 counterexample: the claim quantifies over every `MUSAStream`, but
`unpack3` goes through the checked constructor, whose
`TORCH_CHECK(device_type() == kMUSA)` raises for a stream built with the
`UNCHECKED` constructor on a non-MUSA device.  At this concrete stream the
roundtrip raises instead of yielding a stream equal to the original. -/
theorem c8_counterexample :
    MUSAStream.unpack3 strC8cpu.pack3.stream_id strC8cpu.pack3.device_index
        strC8cpu.pack3.device_type =
      Except.error "MUSAStream device type check failed" := rfl

/-- C8 (amended): for every `MUSAStream` whose underlying stream has the
MUSA device type, `unpack3` applied to the three fields of `pack3` yields
the stream back, equal under `operator==`; and any two MUSAStreams equal
under `operator==` have equal `std::hash` values (for the host hash `hf`
of the unwrapped stream). -/
theorem c8_pack3_roundtrip_and_hash
    (s : MUSAStream) (hf : Stream → Nat) (a b : MUSAStream)
    (hmusa : s.stream_.device_type = DeviceType.musa) :
    (MUSAStream.unpack3 s.pack3.stream_id s.pack3.device_index
        s.pack3.device_type = Except.ok s ∧
      MUSAStream.beq s s = true) ∧
    (MUSAStream.beq a b = true → musaStreamHash hf a = musaStreamHash hf b) := by
  obtain ⟨⟨sid, idx, dt⟩⟩ := s
  refine ⟨⟨?_, ?_⟩, ?_⟩
  · simp only at hmusa
    simp [MUSAStream.unpack3, MUSAStream.mk_checked, Stream.unpack3,
      MUSAStream.pack3, Stream.pack3, hmusa]
  · simp [MUSAStream.beq, Stream.beq, MUSAStream.unwrap]
  · intro hab
    obtain ⟨⟨asid, aidx, adt⟩⟩ := a
    obtain ⟨⟨bsid, bidx, bdt⟩⟩ := b
    simp [MUSAStream.beq, Stream.beq, MUSAStream.unwrap] at hab
    obtain ⟨h1, h2, h3⟩ := hab
    simp [musaStreamHash, MUSAStream.unwrap, h1, h2, h3]

def strC8musa : MUSAStream :=
  MUSAStream.unchecked { sid := 7, device_index := 0, device_type := DeviceType.musa }

/-- Witness for the amended C8 at a concrete MUSA stream. -/
theorem c8_pack3_roundtrip_and_hash_witness :
    (MUSAStream.unpack3 strC8musa.pack3.stream_id strC8musa.pack3.device_index
        strC8musa.pack3.device_type = Except.ok strC8musa ∧
      MUSAStream.beq strC8musa strC8musa = true) ∧
    (MUSAStream.beq strC8musa strC8musa = true →
      musaStreamHash (fun st => st.sid.natAbs) strC8musa =
        musaStreamHash (fun st => st.sid.natAbs) strC8musa) :=
  c8_pack3_roundtrip_and_hash strC8musa (fun st => st.sid.natAbs)
    strC8musa strC8musa rfl

/-- C10: `Any(self)` and `All(self)` (the full reductions without a dim
argument) always return a tensor of Bool scalar type; a non-Bool input's
reduction result is converted to Bool before being returned. -/
theorem c10_any_all_return_bool (E : Ext) (self : Tensor) :
    Except.map (fun r => r.1.scalar_type) (Any E self) =
      Except.ok ScalarType.Bool ∧
    Except.map (fun r => r.1.scalar_type) (All E self) =
      Except.ok ScalarType.Bool := by
  have hwrap : maybe_wrap_dims [] self.dim = Except.ok [] := rfl
  constructor <;>
    · first
        | unfold Any
        | unfold All
      unfold Reduction
      rw [hwrap]
      by_cases hN : self.numel = 0 <;>
        by_cases hB : self.scalar_type = ScalarType.Bool <;>
        simp [hN, hB, ReduceCall, normOrdOf, tensorTo, emptyTensor,
          musa_infer_dtype_from_optional, musa_get_dtype_from_self,
          undefinedTensor, isIntegralType, Except.map]

lemma resize_output_sizes (t : Tensor) (s : List Nat) :
    (resize_output t s).sizes = s := by
  unfold resize_output
  by_cases h : t.sizes = s <;> simp [h]

lemma cumulative_impl_sizes (E : Ext) (out in_ : Tensor) (dim : Int)
    (mode : CumMode) : (CumulativeImpl E out in_ dim mode).1.sizes = out.sizes := by
  unfold CumulativeImpl
  by_cases h0 : in_.numel = 0
  · simp [h0]
  · simp only [h0, if_false, ite_false]
    by_cases hd : in_.dim = 0 <;>
      by_cases hc :
        (cumCtypes E in_.scalar_type out.scalar_type).2 ≠ out.scalar_type <;>
      simp [hd, hc, tensorFill, tensorTo]

/-- C4: for `CumSumOut` and `CumProdOut`, an explicit dtype differing from
out's scalar type raises before out is resized or written; otherwise out
is resized to self's sizes and filled with the cumulative result of
`CumulativeImpl`, so the returned tensor's sizes are self's sizes. -/
theorem c4_cumulative_out
    (E : Ext) (self : Tensor) (dim : Int) (d : ScalarType) (out : Tensor) :
    (CumSumOut E self dim (some d) out =
      (if d = out.scalar_type then
        Except.ok (CumulativeImpl E (resize_output out self.sizes) self dim
          CumMode.ADD)
      else Except.error "Expected out tensor to have dtype")) ∧
    (CumSumOut E self dim none out =
      Except.ok (CumulativeImpl E (resize_output out self.sizes) self dim
        CumMode.ADD)) ∧
    (CumProdOut E self dim (some d) out =
      (if d = out.scalar_type then
        Except.ok (CumulativeImpl E (resize_output out self.sizes) self dim
          CumMode.MUL)
      else Except.error "Expected out tensor to have dtype")) ∧
    (CumProdOut E self dim none out =
      Except.ok (CumulativeImpl E (resize_output out self.sizes) self dim
        CumMode.MUL)) ∧
    (CumulativeImpl E (resize_output out self.sizes) self dim
        CumMode.ADD).1.sizes = self.sizes ∧
    (CumulativeImpl E (resize_output out self.sizes) self dim
        CumMode.MUL).1.sizes = self.sizes := by
  refine ⟨?_, rfl, ?_, rfl, ?_, ?_⟩
  · by_cases h : d = out.scalar_type <;>
      simp [CumSumOut, CumulativeOut, h]
  · by_cases h : d = out.scalar_type <;>
      simp [CumProdOut, CumulativeOut, h]
  · rw [cumulative_impl_sizes, resize_output_sizes]
  · rw [cumulative_impl_sizes, resize_output_sizes]

lemma get_reduction_shape_eq_spec (sizes : List Nat) (ws : List Nat)
    (keepdim : Bool) :
    get_reduction_shape sizes ws keepdim = reductionShapeSpec sizes ws keepdim := by
  unfold get_reduction_shape shape_from_dim_mask make_dim_mask reductionShapeSpec
  congr 1
  funext p
  by_cases h : ws = [] <;> simp [h]

lemma reduce_call_sizes (E : Ext) (out self : Tensor) (dims : List Int)
    (m : ReduceMode) (p : Option Scalar) (n : Bool) (t : Tensor)
    (tr : List Event) (h : ReduceCall E out self dims m p n = Except.ok (t, tr)) :
    t.sizes = out.sizes := by
  unfold ReduceCall at h
  by_cases h0 : self.numel = 0
  · simp [h0] at h
    rw [← h.1]
  · cases hno : normOrdOf p n with
    | error e => simp [h0, hno] at h
    | ok pv =>
      simp [h0, hno] at h
      rw [← h.1]

lemma maybe_wrap_dim_idem (dI : Int) (n d : Nat)
    (h : maybe_wrap_dim dI n = Except.ok d) :
    maybe_wrap_dim (Int.ofNat d) n = Except.ok d := by
  unfold maybe_wrap_dim at h ⊢
  by_cases hn : n = 0 <;>
    simp only [hn, ite_true, ite_false, if_true, if_false] at h ⊢ <;>
    split_ifs at h ⊢ <;>
    simp_all <;>
    omega

/-- C3: `Reduction` produces a tensor of the host framework's reduction
shape (negative dims wrapped, each reduced dimension removed, or kept with
size 1 under keepdim; an empty dim list reduces everything), and
`ReductionIndices` gives both of its outputs that same shape. -/
theorem c3_reduction_shapes (E : Ext) (self : Tensor) (keepdim : Bool)
    (m : ReduceMode) :
    (∀ dim ws odt p n t tr,
      maybe_wrap_dims dim self.dim = Except.ok ws →
      Reduction E self dim keepdim odt m p n = Except.ok (t, tr) →
      t.sizes = reductionShapeSpec self.sizes ws keepdim) ∧
    (∀ dI dw o i tr,
      maybe_wrap_dim dI self.dim = Except.ok dw →
      ReductionIndices E self dI keepdim m = Except.ok (o, i, tr) →
      o.sizes = reductionShapeSpec self.sizes [dw] keepdim ∧
        i.sizes = o.sizes) := by
  constructor
  · intro dim ws odt p n t tr hw hR
    unfold Reduction at hR
    rw [hw] at hR
    by_cases hN : self.numel = 0
    · simp [hN] at hR
      rw [← hR.1, ← get_reduction_shape_eq_spec]
      rfl
    · simp only [hN, if_false, ite_false] at hR
      cases hRC : ReduceCall E
          (emptyTensor (get_reduction_shape self.sizes ws keepdim)
            (musa_infer_dtype_from_optional self odt undefinedTensor)
            self.device)
          self (ws.map Int.ofNat) m p n with
      | error e => rw [hRC] at hR; exact absurd hR (by simp)
      | ok r =>
        rw [hRC] at hR
        simp at hR
        have hs := reduce_call_sizes E _ self (ws.map Int.ofNat) m p n r.1 r.2
          (by rw [hRC])
        rw [← hR.1, hs, ← get_reduction_shape_eq_spec]
        rfl
  · intro dI dw o i tr hd hRI
    have hidem : maybe_wrap_dim ((dw : Nat) : Int) self.dim = Except.ok dw :=
      maybe_wrap_dim_idem dI self.dim dw hd
    have h2 : maybe_wrap_dims [Int.ofNat dw] self.dim = Except.ok [dw] := by
      simp [maybe_wrap_dims, List.mapM, List.mapM.loop, hidem]
    unfold ReductionIndices at hRI
    rw [hd] at hRI
    simp only [h2] at hRI
    unfold ReduceIndicesCall at hRI
    simp [emptyTensor] at hRI
    refine ⟨?_, ?_⟩
    · rw [← hRI.1, ← get_reduction_shape_eq_spec]
    · rw [← hRI.1, ← hRI.2.1]

def devW : Device := { dtype := DeviceType.musa, index := 0 }

def tC3 : Tensor :=
  { defined := true
    scalar_type := ScalarType.Float
    sizes := [2, 3]
    device := devW
    data := [1, 2, 3, 4, 5, 6] }

/-- Witness for C3 at a concrete 2x3 tensor reduced over dim -1. -/
theorem c3_reduction_shapes_witness :
    ({ defined := true, scalar_type := ScalarType.Float, sizes := [2],
       device := devW, data := ([] : List Int) } : Tensor).sizes =
      reductionShapeSpec tC3.sizes [1] false ∧
    (({ defined := true, scalar_type := ScalarType.Float, sizes := [2],
        device := devW, data := ([] : List Int) } : Tensor).sizes =
        reductionShapeSpec tC3.sizes [1] false ∧
      ({ defined := true, scalar_type := ScalarType.Long, sizes := [2],
         device := devW, data := ([] : List Int) } : Tensor).sizes =
        ({ defined := true, scalar_type := ScalarType.Float, sizes := [2],
           device := devW, data := ([] : List Int) } : Tensor).sizes) :=
  ⟨(c3_reduction_shapes extTrivial tC3 false ReduceMode.ADD).1
      [-1] [1] none none false
      { defined := true, scalar_type := ScalarType.Float, sizes := [2],
        device := devW, data := ([] : List Int) }
      [Event.guard devW, Event.guard devW, Event.createMUTensor,
       Event.createMUTensor, Event.setMode, Event.setDim [1], Event.run]
      (by rfl) (by rfl),
   (c3_reduction_shapes extTrivial tC3 false ReduceMode.ADD).2
      (-1) 1
      { defined := true, scalar_type := ScalarType.Float, sizes := [2],
        device := devW, data := ([] : List Int) }
      { defined := true, scalar_type := ScalarType.Long, sizes := [2],
        device := devW, data := ([] : List Int) }
      [Event.guard devW, Event.createMUTensor, Event.createMUTensor,
       Event.createMUTensor, Event.setMode, Event.setDim [1],
       Event.runWithIndices]
      (by rfl) (by rfl)⟩

/-- Is this event the device guard for `d`? -/
def isGuard (d : Device) : Event → Bool
  | Event.guard d2 => decide (d2 = d)
  | _ => false

/-- Scans a trace left to right, requiring every library event (handle
creation or run call) to come after a guard event for `d`. -/
def guardedFrom (d : Device) : Bool → List Event → Bool
  | _, [] => true
  | seen, e :: r => (!(libEvent e) || seen) && guardedFrom d (seen || isGuard d e) r

/-- Every library event in the trace is preceded by a guard for `d`. -/
def guardedBy (d : Device) (l : List Event) : Bool :=
  guardedFrom d false l

lemma guardedFrom_of_true (d : Device) (l : List Event) :
    guardedFrom d true l = true := by
  induction l with
  | nil => rfl
  | cons e r ih => simp [guardedFrom, ih]

/-- C5: every wrapper invoking the primitive library performs the
device-guard context switch to the input tensor's device before any
library tensor handle is created or any library run entry point is
called: in the traces of `ReduceCall`, `CumulativeImpl` and
`ReduceIndicesCall`, all library events come after a guard event for the
input's device. -/
theorem c5_guard_before_library_calls (E : Ext) :
    (∀ out self dims m p n t tr,
      ReduceCall E out self dims m p n = Except.ok (t, tr) →
      guardedBy self.device tr = true) ∧
    (∀ out in_ dim cm,
      guardedBy in_.device (CumulativeImpl E out in_ dim cm).2 = true) ∧
    (∀ o0 i0 self dI m o i tr,
      ReduceIndicesCall E o0 i0 self dI m = Except.ok (o, i, tr) →
      guardedBy self.device tr = true) := by
  refine ⟨?_, ?_, ?_⟩
  · intro out self dims m p n t tr h
    unfold ReduceCall at h
    by_cases h0 : self.numel = 0
    · simp [h0] at h
      rw [← h.2]
      simp [guardedBy, guardedFrom, isGuard, libEvent]
    · cases hno : normOrdOf p n with
      | error e => simp [h0, hno] at h
      | ok pv =>
        simp [h0, hno] at h
        rw [← h.2]
        cases n <;>
          simp [guardedBy, guardedFrom, isGuard, libEvent, guardedFrom_of_true]
  · intro out in_ dim cm
    unfold CumulativeImpl
    by_cases h0 : in_.numel = 0
    · simp [h0, guardedBy, guardedFrom]
    · simp only [h0, if_false, ite_false]
      by_cases hd : in_.dim = 0 <;>
        by_cases hc :
          (cumCtypes E in_.scalar_type out.scalar_type).2 ≠ out.scalar_type <;>
        simp [hd, hc, guardedBy, guardedFrom, isGuard, libEvent,
          guardedFrom_of_true]
  · intro o0 i0 self dI m o i tr h
    unfold ReduceIndicesCall at h
    by_cases hdt : self.scalar_type ≠ o0.scalar_type
    · simp [hdt] at h
    · simp [hdt] at h
      rw [← h.2.2]
      simp [guardedBy, guardedFrom, isGuard, libEvent, guardedFrom_of_true]

def tC5 : Tensor :=
  { defined := true
    scalar_type := ScalarType.Float
    sizes := [2]
    device := devW
    data := [3, 4] }

def tC5out : Tensor :=
  { defined := true
    scalar_type := ScalarType.Float
    sizes := []
    device := devW
    data := [0] }

/-- Witness for C5 at concrete calls of the three wrappers. -/
theorem c5_guard_before_library_calls_witness :
    guardedBy tC5.device
      [Event.guard devW, Event.createMUTensor, Event.createMUTensor,
       Event.setMode, Event.setDim [0], Event.run] = true ∧
    guardedBy tC5.device (CumulativeImpl extTrivial tC5out tC5 0 CumMode.ADD).2 = true ∧
    guardedBy tC5.device
      [Event.guard devW, Event.createMUTensor, Event.createMUTensor,
       Event.createMUTensor, Event.setMode, Event.setDim [0],
       Event.runWithIndices] = true :=
  ⟨(c5_guard_before_library_calls extTrivial).1 tC5out tC5 [0] ReduceMode.ADD
      none false
      { defined := true, scalar_type := ScalarType.Float, sizes := [],
        device := devW, data := ([] : List Int) }
      [Event.guard devW, Event.createMUTensor, Event.createMUTensor,
       Event.setMode, Event.setDim [0], Event.run]
      (by rfl),
   (c5_guard_before_library_calls extTrivial).2.1 tC5out tC5 0 CumMode.ADD,
   (c5_guard_before_library_calls extTrivial).2.2 tC5out tC5out tC5 0
      ReduceMode.MAX
      { defined := true, scalar_type := ScalarType.Float, sizes := [],
        device := devW, data := ([] : List Int) }
      { defined := true, scalar_type := ScalarType.Float, sizes := [],
        device := devW, data := ([] : List Int) }
      [Event.guard devW, Event.createMUTensor, Event.createMUTensor,
       Event.createMUTensor, Event.setMode, Event.setDim [0],
       Event.runWithIndices]
      (by rfl)⟩

lemma marshalDims_nil (self : Tensor) : marshalDims self [] = [] := by
  unfold marshalDims
  split_ifs <;> rfl

/-- C2 (amended): for the wrappers that invoke the primitive library, the
numeric payload of the result is exactly the library's run output, with
the wrapper only marshalling (dim selection, the cumulative dtype
workaround's conversions) — except that `MaxAll` (and `MinAll`) on Double
inputs delegate the computation to the host framework's CPU reduction
instead of the primitive library. -/
theorem c2_library_computes_reductions_amended (E : Ext) :
    (∀ out self dims m p n pv,
      self.numel ≠ 0 → normOrdOf p n = Except.ok pv →
      ∃ tr, ReduceCall E out self dims m p n =
        Except.ok
          ({ out with data := E.reduceRun m (marshalDims self dims) pv self.data },
           tr)) ∧
    (∀ out in_ dim cm,
      in_.numel ≠ 0 →
      (CumulativeImpl E out in_ dim cm).1.data =
        (let tc := cumCtypes E in_.scalar_type out.scalar_type
         let cin := if tc.1 ≠ in_.scalar_type then E.convert tc.1 in_.data
           else in_.data
         let r := E.cumRun cm dim cin
         if tc.2 ≠ out.scalar_type then E.convert out.scalar_type r else r)) ∧
    (∀ self, self.numel ≠ 0 → self.scalar_type ≠ ScalarType.Double →
      ∃ tr, MaxAll E self =
        Except.ok
          ({ emptyTensor [] self.scalar_type self.device with
             data := E.reduceRun ReduceMode.MAX [] none self.data }, tr)) ∧
    (∀ self, self.scalar_type = ScalarType.Double →
      MaxAll E self =
        Except.ok
          ({ defined := true, scalar_type := ScalarType.Double, sizes := [],
             device := self.device, data := E.cpuMaxAll self.data },
           [Event.guard self.device])) := by
  refine ⟨?_, ?_, ?_, ?_⟩
  · intro out self dims m p n pv h0 h1
    unfold ReduceCall
    simp only [h0, if_false, ite_false, h1]
    exact ⟨_, rfl⟩
  · intro out in_ dim cm h0
    unfold CumulativeImpl
    simp only [h0, if_false, ite_false]
    by_cases hd : in_.dim = 0 <;>
      by_cases hc :
        (cumCtypes E in_.scalar_type out.scalar_type).2 ≠ out.scalar_type <;>
      by_cases hi :
        (cumCtypes E in_.scalar_type out.scalar_type).1 ≠ in_.scalar_type <;>
      simp [hd, hc, hi, tensorFill, tensorTo]
  · intro self h0 hD
    unfold MaxAll MaxAllCall
    simp only [hD, if_false, ite_false, h0]
    unfold ReduceCall
    simp only [h0, if_false, ite_false]
    rw [show normOrdOf none false = Except.ok none from rfl]
    rw [marshalDims_nil self]
    exact ⟨_, rfl⟩
  · intro self hD
    unfold MaxAll
    simp [hD]

def extC2 : Ext :=
  { extTrivial with
    reduceRun := fun _ _ _ _ => [7]
    cpuMaxAll := fun _ => [9] }

def tC2dbl : Tensor :=
  { defined := true
    scalar_type := ScalarType.Double
    sizes := []
    device := devW
    data := [5] }

/-- C2 counterexample: under a library instance whose run entry point
returns [7] on every input (`extC2.reduceRun` is the constant function),
`MaxAll` of a Double tensor returns payload [9] — the value produced by
the host framework's CPU `at::max` fallback, not by the primitive
library's run entry point; so not every reduction's numeric computation is
performed by the primitive library. -/
theorem c2_counterexample :
    Except.map (fun r => r.1.data) (MaxAll extC2 tC2dbl) = Except.ok [9] ∧
    extC2.reduceRun = fun _ _ _ _ => [7] :=
  ⟨rfl, rfl⟩

/-- Witness for the amended C2 at concrete tensors and library instances. -/
theorem c2_library_computes_reductions_amended_witness :
    Except.map (fun r => r.1.data) (MaxAll extC2 tC5) = Except.ok [7] ∧
    Except.map (fun r => r.1.data) (MaxAll extC2 tC2dbl) = Except.ok [9] ∧
    (CumulativeImpl extTrivial tC5out tC5 0 CumMode.ADD).1.data = [] ∧
    (∃ tr, ReduceCall extTrivial tC5out tC5 [0] ReduceMode.ADD none false =
      Except.ok ({ tC5out with data := [] }, tr)) := by
  have h := c2_library_computes_reductions_amended extTrivial
  have h2 := c2_library_computes_reductions_amended extC2
  refine ⟨?_, ?_, ?_, ?_⟩
  · obtain ⟨tr, htr⟩ := h2.2.2.1 tC5 (by decide) (by decide)
    rw [htr]
    rfl
  · rw [h2.2.2.2 tC2dbl rfl]
    rfl
  · rw [h.2.1 tC5out tC5 0 CumMode.ADD (by decide)]
    rfl
  · obtain ⟨tr, htr⟩ := h.1 tC5out tC5 [0] ReduceMode.ADD none false none
      (by decide) rfl
    exact ⟨tr, htr.trans rfl⟩

end TorchMusa
